import Mathlib

/-!
Formal model (shallow embedding) of the process-lifecycle engine in
`service-manage.py` (class `ServiceManager`).

Modelling conventions:
* Text (service names, file names, file contents) is modelled as `List Char`
  (`Str`), so that every operation is computable by kernel reduction.
  Python's code-point-wise string comparison is the lexicographic order on
  `List Char` from its `LinearOrder` instance.
* The OS process table is a `ProcessTable`: a predicate on live (positive)
  pids, a predicate on existing process groups, and a flag telling whether
  `kill(-1, 0)` finds at least one signalable process.
* `os.kill(pid, 0)` is modelled by `osKill0Succeeds`: for a positive pid it
  succeeds iff that process is live; for pid 0 it addresses the calling
  process's own process group, which always contains the (live) caller, so
  it succeeds; for pid -1 it succeeds iff some other process is signalable;
  for pid < -1 it succeeds iff process group `-pid` exists.
* Manager state (`MState`) is the filesystem content the code touches:
  configured services, the pid files (raw contents), and the log files
  (list of appended chunks), all as association lists keyed by name.
* Stateful operations return their structured outcome (mirroring the
  printed messages of the Python code), the successor state, and an event
  trace (`Ev`) recording probes, signals, sleeps, spawns and file writes.
* Time-dependent liveness during `stop_service` is modelled by indexing the
  probe calls: `tbl : Nat → ProcessTable` gives the process table observed
  by the k-th liveness probe of the call.
* Exceptions of `Popen` / `killpg` are modelled by boolean oracles
  (`StartOracle.spawnRaises`, `StopOracle.termRaises`, `StopOracle.killRaises`);
  the Python code swallows `(OSError, ProcessLookupError)` around the
  signalling block and returns `False` from the `except` branch of `start`.
-/

namespace ServiceManage

/-- Text: Python strings modelled as lists of characters. -/
abbrev Str := List Char

/-- OS process table snapshot, as far as `os.kill(pid, 0)` can observe it. -/
structure ProcessTable where
  procs : Int → Bool
  groups : Int → Bool
  othersSignalable : Bool

/-- Success of `os.kill(pid, 0)` (signal 0: error checking only).
`kill(0, 0)` addresses the caller's own process group and always succeeds,
because the caller itself is alive and signalable. -/
def osKill0Succeeds (t : ProcessTable) (pid : Int) : Bool :=
  if 0 < pid then t.procs pid
  else if pid = 0 then true
  else if pid = -1 then t.othersSignalable
  else t.groups (-pid)

/-- Model of `_is_process_running_by_pid`: `try: os.kill(pid, 0); return True
except (OSError, ProcessLookupError): return False`. -/
def _is_process_running_by_pid (t : ProcessTable) (pid : Int) : Bool :=
  osKill0Succeeds t pid

/-- A service's configuration dictionary entry, as `start_service` reads it. -/
structure ServiceConfig where
  command : Str
  args : List Str
  cwd : Option Str
  env : List (Str × Str)
deriving DecidableEq

/-- First-match lookup in an association list (a Python dict access). -/
def alookup {α : Type} : List (Str × α) → Str → Option α
  | [], _ => none
  | kv :: rest, k => if kv.1 = k then some kv.2 else alookup rest k

/-- Remove the entry with the given key (deleting a file). -/
def eraseKey {α : Type} (l : List (Str × α)) (k : Str) : List (Str × α) :=
  l.filter (fun kv => kv.1 ≠ k)

/-- The manager-visible filesystem state. -/
structure MState where
  services : List (Str × ServiceConfig)
  pidFiles : List (Str × Str)
  logFiles : List (Str × List Str)
deriving DecidableEq

/-- Python truthiness of an `Optional[int]`: `None` and `0` are falsy. -/
def optTruthy : Option Int → Bool
  | none => false
  | some n => n != 0

/-- Python `str.strip()`: remove leading and trailing whitespace. -/
def pyStrip (s : Str) : Str :=
  ((s.dropWhile Char.isWhitespace).reverse.dropWhile Char.isWhitespace).reverse

/-- Decimal digit run to a natural number (`int` parsing, digits only). -/
def parseNat (s : Str) : Option Nat :=
  if s ≠ [] ∧ s.all Char.isDigit then
    some (s.foldl (fun acc c => acc * 10 + (c.toNat - '0'.toNat)) 0)
  else none

/-- Python `int(s)` on an already-stripped string: optional sign followed by
decimal digits, `None` (`ValueError`) otherwise. -/
def parseInt (s : Str) : Option Int :=
  match s with
  | '-' :: rest => (parseNat rest).map (fun n => -(n : Int))
  | '+' :: rest => (parseNat rest).map (fun n => (n : Int))
  | _ => (parseNat s).map (fun n => (n : Int))

/-- Model of `_load_pid`: read `<name>.pid`, `int(content.strip())`; absent file or
unparsable content yields `None`. -/
def _load_pid (st : MState) (name : Str) : Option Int :=
  match alookup st.pidFiles name with
  | none => none
  | some content => parseInt (pyStrip content)

/-- Model of `_delete_pid_file`: unlink `<name>.pid` if it exists (idempotent). -/
def _delete_pid_file (st : MState) (name : Str) : MState :=
  { st with pidFiles := eraseKey st.pidFiles name }

/-- Rendering `str(pid)` for the pid-file write. -/
def intToStr (n : Int) : Str := (toString n).data

/-- Model of `_save_pid`: overwrite `<name>.pid` with `str(pid)` (write modelled as
always succeeding; on `IOError` the code only prints a warning). -/
def _save_pid (st : MState) (name : Str) (pid : Int) : MState :=
  { st with pidFiles := (name, intToStr pid) :: eraseKey st.pidFiles name }

/-- Content of a log file (list of appended chunks). -/
def getLog (l : List (Str × List Str)) (file : Str) : List Str :=
  (alookup l file).getD []

/-- Append one chunk to a log file (open in mode "a" and write). -/
def appendLog (st : MState) (file chunk : Str) : MState :=
  { st with logFiles := (file, getLog st.logFiles file ++ [chunk]) :: eraseKey st.logFiles file }

/-- Path `<service>-<today>.log` inside the log directory. -/
def logFileName (name today : Str) : Str :=
  name ++ ('-' :: today) ++ ".log".data

/-- The session-start marker chunk written before spawning:
`"\n--- Service started at {timestamp} ---\n"`. -/
def sessionMarker (ts : Str) : Str :=
  "\n--- Service started at ".data ++ ts ++ " ---\n".data

/-- Observable events of one engine operation. -/
inductive Ev
  | probe (pid : Int) (res : Bool)
  | sigTermGroup (pid : Int)
  | sigKillGroup (pid : Int)
  | sleep (secs : Nat)
  | deletePid (name : Str)
  | savePid (name : Str) (pid : Int)
  | logWrite (file : Str) (chunk : Str)
  | spawn (command : Str) (args : List Str)
deriving DecidableEq

/-- Structured outcome of `start_service`, mirroring its printed messages;
the Python function returns `outcome.toBool`. -/
inductive StartOutcome
  | notFound
  | alreadyRunning (pid : Int)
  | started (pid : Int)
  | startFailed
  | spawnError
deriving DecidableEq

def StartOutcome.toBool : StartOutcome → Bool
  | .alreadyRunning _ => true
  | .started _ => true
  | _ => false

/-- External-world oracle for one `start_service` call. -/
structure StartOracle where
  /-- Whether `subprocess.Popen` raises (e.g. `FileNotFoundError`, `PermissionError`);
  the opening of the log file and the marker write are modelled as
  succeeding (they precede the spawn inside the `try` block). -/
  spawnRaises : Bool
  /-- pid of the spawned child. -/
  childPid : Int
  /-- Whether `process.poll() is None` after the 2-second grace sleep. -/
  childAlive : Bool

/-- Model of `start_service`.  Control flow of the source:
1. `config = self._get_service_config(service_name)`; `if not config: return False`.
2. `existing_pid = self._load_pid(...)`;
   `if existing_pid and self._is_process_running_by_pid(existing_pid)`:
   already running, return `True` (the probe is short-circuited away when
   `existing_pid` is `None` or `0`);
   `elif existing_pid`: remove the stale pid file and fall through.
3. Open today's log file, write the session marker, `Popen(...)` detached.
4. `time.sleep(2)`; if `poll()` is `None`, save the pid file and return
   `True`, else return `False`.  A raising `Popen` returns `False` from the
   `except` branch with the marker already written and no pid file saved. -/
def start_service (tbl : ProcessTable) (o : StartOracle) (today ts : Str)
    (st : MState) (name : Str) : StartOutcome × MState × List Ev :=
  match alookup st.services name with
  | none => (.notFound, st, [])
  | some cfg =>
    let existing := _load_pid st name
    if optTruthy existing && _is_process_running_by_pid tbl (existing.getD 0) then
      (.alreadyRunning (existing.getD 0), st, [Ev.probe (existing.getD 0) true])
    else
      let pre : MState × List Ev :=
        if optTruthy existing then
          (_delete_pid_file st name,
           [Ev.probe (existing.getD 0) false, Ev.deletePid name])
        else (st, [])
      let file := logFileName name today
      let st1 := appendLog pre.1 file (sessionMarker ts)
      let evs1 := pre.2 ++ [Ev.logWrite file (sessionMarker ts)]
      if o.spawnRaises then
        (.spawnError, st1, evs1)
      else
        let evs2 := evs1 ++ [Ev.spawn cfg.command cfg.args, Ev.sleep 2]
        if o.childAlive then
          (.started o.childPid, _save_pid st1 name o.childPid,
           evs2 ++ [Ev.savePid name o.childPid])
        else
          (.startFailed, st1, evs2)

/-- Structured outcome of `stop_service`, mirroring its printed messages;
the Python function returns `outcome.toBool`. -/
inductive StopOutcome
  | notFound
  | noPidFile
  | staleCleared
  | stopped
  | stillRunning
deriving DecidableEq

def StopOutcome.toBool : StopOutcome → Bool
  | .notFound => false
  | .stillRunning => false
  | _ => true

/-- External-world oracle for the signalling block of one `stop_service`
call (liveness itself comes from the indexed tables). -/
structure StopOracle where
  /-- Whether `os.killpg(os.getpgid(pid), SIGTERM)` raises `(OSError,
  ProcessLookupError)`; the exception is swallowed and control jumps to the
  final liveness check. -/
  termRaises : Bool
  /-- the SIGKILL `killpg` raises; likewise swallowed, skipping the final
  1-second sleep. -/
  killRaises : Bool

/-- The `for _ in range(10)` wait loop of `stop_service`: probe; on death
break, otherwise `time.sleep(1)` and continue.  `k` is the index of the
next liveness probe; returns the next free index and the events. -/
def stopPollTr (tbl : Nat → ProcessTable) (p : Int) : Nat → Nat → Nat × List Ev
  | k, 0 => (k, [])
  | k, fuel + 1 =>
    if _is_process_running_by_pid (tbl k) p then
      let r := stopPollTr tbl p (k + 1) fuel
      (r.1, Ev.probe p true :: Ev.sleep 1 :: r.2)
    else (k + 1, [Ev.probe p false])

/-- The `try` block of `stop_service`: SIGTERM to the process group, wait
loop, then SIGKILL to the group plus one more second if still alive.
Returns the index of the next probe (the final re-check) and the events. -/
def stopTryBlock (tbl : Nat → ProcessTable) (o : StopOracle) (p : Int) :
    Nat × List Ev :=
  if o.termRaises then
    (1, [Ev.sigTermGroup p])
  else
    let r := stopPollTr tbl p 1 10
    if _is_process_running_by_pid (tbl r.1) p then
      if o.killRaises then
        (r.1 + 1, Ev.sigTermGroup p :: r.2 ++ [Ev.probe p true, Ev.sigKillGroup p])
      else
        (r.1 + 1, Ev.sigTermGroup p :: r.2 ++ [Ev.probe p true, Ev.sigKillGroup p, Ev.sleep 1])
    else
      (r.1 + 1, Ev.sigTermGroup p :: r.2 ++ [Ev.probe p false])

/-- Model of `stop_service`.  Control flow of the source:
1. `if not config: return False`.
2. `pid = self._load_pid(...)`; `if not pid`: "not running (no PID file
   found)", return `True` (pid `0` takes this branch too);
3. initial probe: if dead, delete the stale pid file, return `True`;
4. `try`: SIGTERM to the group, up-to-10-second wait loop, SIGKILL to the
   group plus 1 second if still alive; `except (OSError,
   ProcessLookupError): pass`;
5. final probe: dead → delete pid file, return `True`; alive → warning,
   return `False`. -/
def stop_service (tbl : Nat → ProcessTable) (o : StopOracle) (st : MState)
    (name : Str) : StopOutcome × MState × List Ev :=
  match alookup st.services name with
  | none => (.notFound, st, [])
  | some _ =>
    match _load_pid st name with
    | none => (.noPidFile, st, [])
    | some p =>
      if p = 0 then (.noPidFile, st, [])
      else if !_is_process_running_by_pid (tbl 0) p then
        (.staleCleared, _delete_pid_file st name,
         [Ev.probe p false, Ev.deletePid name])
      else
        let tr := stopTryBlock tbl o p
        if _is_process_running_by_pid (tbl tr.1) p then
          (.stillRunning, st,
           (Ev.probe p true :: tr.2) ++ [Ev.probe p true])
        else
          (.stopped, _delete_pid_file st name,
           (Ev.probe p true :: tr.2) ++ [Ev.probe p false, Ev.deletePid name])

/-- Status report of `status_service` (a print in the source). -/
inductive StatusR
  | notFound
  | running (pid : Int)
  | stoppedStale (pid : Int)
  | stopped
deriving DecidableEq

/-- Model of `status_service`: `pid = self._load_pid(...)`;
`if pid and isRunning(pid)`: RUNNING; `elif pid`: STOPPED (stale pid file,
which is deleted); `else`: STOPPED. -/
def status_service (tbl : ProcessTable) (st : MState) (name : Str) :
    StatusR × MState :=
  match alookup st.services name with
  | none => (.notFound, st)
  | some _ =>
    let pid := _load_pid st name
    if optTruthy pid && _is_process_running_by_pid tbl (pid.getD 0) then
      (.running (pid.getD 0), st)
    else if optTruthy pid then
      (.stoppedStale (pid.getD 0), _delete_pid_file st name)
    else
      (.stopped, st)

/-- Model of `restart_service`: `if not self.stop_service(name): return False;
time.sleep(1); return self.start_service(name)`. -/
def restart_service (tblStop : Nat → ProcessTable) (oStop : StopOracle)
    (tblStart : ProcessTable) (oStart : StartOracle) (today ts : Str)
    (st : MState) (name : Str) : Bool × MState × List Ev :=
  let r := stop_service tblStop oStop st name
  if r.1.toBool = false then
    (false, r.2.1, r.2.2)
  else
    let s := start_service tblStart oStart today ts r.2.1 name
    (s.1.toBool, s.2.1, r.2.2 ++ Ev.sleep 1 :: s.2.2)

/-- Number of liveness probes recorded in a trace. -/
def countProbes : List Ev → Nat
  | [] => 0
  | Ev.probe _ _ :: rest => countProbes rest + 1
  | _ :: rest => countProbes rest

/-- Match (`fnmatch`) of a file name against the glob pattern `<name>-*.log` used
by `_cleanup_old_logs` (`self.log_dir.glob(f"{service_name}-*.log")`):
the name must decompose as `<name>-` ++ middle ++ `.log` with the middle
possibly empty, i.e. have that prefix, that suffix, and length at least
their combined length. -/
def globMatch (name : Str) (file : Str) : Bool :=
  (name ++ ['-']).isPrefixOf file && ".log".data.isSuffixOf file &&
    decide (name.length + 5 ≤ file.length)

/-- Python list slice `l[:u]` (`u` may be negative: count from the end,
clamped at 0).  `_cleanup_old_logs` computes `log_files[:-retention_days]`,
i.e. `pySliceTo sorted (-retention_days)`; note that for retention 0 this
is `l[:0] = []`. -/
def pySliceTo {α : Type} (l : List α) (u : Int) : List α :=
  if 0 ≤ u then l.take u.toNat else l.take (l.length - (-u).toNat)

/-- One iteration of the service loop of `_cleanup_old_logs`, acting on the
list of file names in the log directory: glob `<name>-*.log`, skip when at
most `retention` files match, otherwise sort the matches (Python sorts the
`Path` objects, here lexicographically by file name, as all share the
directory), unlink `log_files[:-retention]` and keep the rest. -/
def cleanupService (retention : Int) (files : List Str) (name : Str) : List Str :=
  let logFiles := files.filter (fun f => globMatch name f)
  if (logFiles.length : Int) ≤ retention then files
  else
    let sorted := logFiles.insertionSort (fun a b => a ≤ b)
    let filesToDelete := pySliceTo sorted (-retention)
    files.filter (fun f => !filesToDelete.contains f)

/-- Model of `_cleanup_old_logs`: `retention_days = config.get("log_retention_days", 7)`,
then the per-service pass over `services.keys()` in order. -/
def _cleanup_old_logs (retentionConfig : Option Int) (st : MState)
    (files : List Str) : List Str :=
  let retention := retentionConfig.getD 7
  (st.services.map (fun kv => kv.1)).foldl (cleanupService retention) files

/-! ### Concrete fixtures for witnesses -/

/-- A sample service configuration (`sleep 30`). -/
def cfgSleep : ServiceConfig := ⟨"/bin/sleep".data, ["30".data], none, []⟩

/-- A process table with no live process, no existing group. -/
def tblDead : ProcessTable := ⟨fun _ => false, fun _ => false, false⟩

/-- A process table where exactly pid 42 is live. -/
def tbl42 : ProcessTable := ⟨fun p => p == 42, fun _ => false, false⟩

/-- State with one service `svc` and a pid file holding the given text. -/
def stWith (content : Str) : MState :=
  ⟨[("svc".data, cfgSleep)], [("svc".data, content)], []⟩

/-! ### Helper lemmas -/

theorem alookup_eraseKey {α : Type} (l : List (Str × α)) (k : Str) :
    alookup (eraseKey l k) k = none := by
  induction l with
  | nil => rfl
  | cons kv rest ih =>
    by_cases h : kv.1 = k
    · simpa [eraseKey, List.filter, h] using ih
    · simpa [eraseKey, List.filter, h, alookup] using ih

theorem getLog_appendLog (st : MState) (f c : Str) :
    getLog (appendLog st f c).logFiles f = getLog st.logFiles f ++ [c] := by
  simp [appendLog, getLog, alookup]

theorem countProbes_stopPollTr (tbl : Nat → ProcessTable) (p : Int) :
    ∀ fuel k, countProbes (stopPollTr tbl p k fuel).2 ≤ fuel := by
  intro fuel
  induction fuel with
  | zero => intro k; simp [stopPollTr, countProbes]
  | succ n ih =>
    intro k
    by_cases h : _is_process_running_by_pid (tbl k) p = true
    · simpa [stopPollTr, h, countProbes] using ih (k + 1)
    · simp [stopPollTr, h, countProbes]

theorem spawn_not_mem_stopPollTr (tbl : Nat → ProcessTable) (p : Int)
    (c : Str) (a : List Str) :
    ∀ fuel k, Ev.spawn c a ∉ (stopPollTr tbl p k fuel).2 := by
  intro fuel
  induction fuel with
  | zero => intro k; simp [stopPollTr]
  | succ n ih =>
    intro k
    by_cases h : _is_process_running_by_pid (tbl k) p = true
    · simpa [stopPollTr, h] using ih (k + 1)
    · simp [stopPollTr, h]

theorem spawn_not_mem_stop_trace (tbl : Nat → ProcessTable) (o : StopOracle)
    (st : MState) (name : Str) (c : Str) (a : List Str) :
    Ev.spawn c a ∉ (stop_service tbl o st name).2.2 := by
  unfold stop_service
  cases alookup st.services name with
  | none => simp
  | some cfg =>
    simp only []
    cases _load_pid st name with
    | none => simp
    | some p =>
      by_cases hp : p = 0
      · simp [hp]
      · simp only [hp, if_false]
        by_cases h0 : _is_process_running_by_pid (tbl 0) p = true
        · simp only [h0]
          have hnot := spawn_not_mem_stopPollTr tbl p c a 10 1
          unfold stopTryBlock
          by_cases ht : o.termRaises = true
          · by_cases hf : _is_process_running_by_pid (tbl (1, [Ev.sigTermGroup p]).1) p = true <;>
              simp [ht, hf]
          · by_cases hmid : _is_process_running_by_pid (tbl (stopPollTr tbl p 1 10).1) p = true
            · by_cases hk : o.killRaises = true <;>
                · simp only [Bool.not_eq_true] at ht
                  by_cases hf :
                    _is_process_running_by_pid (tbl ((stopPollTr tbl p 1 10).1 + 1)) p = true <;>
                    simp_all
            · simp only [Bool.not_eq_true] at ht hmid
              by_cases hf :
                _is_process_running_by_pid (tbl ((stopPollTr tbl p 1 10).1 + 1)) p = true <;>
                simp_all
        · simp [h0]

/-- Filtering away the members of the first `d` entries of a duplicate-free
list leaves exactly the remaining entries. -/
theorem filter_not_contains_take (l : List Str) (d : Nat) (hnd : l.Nodup) :
    l.filter (fun f => !(l.take d).contains f) = l.drop d := by
  have hTD := List.take_append_drop d l
  generalize hT : l.take d = tak at hTD ⊢
  generalize hD : l.drop d = drp at hTD ⊢
  rw [← hTD] at hnd ⊢
  rw [List.filter_append]
  have h1 : tak.filter (fun f => !tak.contains f) = [] :=
    List.filter_eq_nil_iff.mpr (fun a ha => by simpa using ha)
  have h2 : drp.filter (fun f => !tak.contains f) = drp :=
    List.filter_eq_self.mpr (fun a ha => by
      have hna : a ∉ tak := fun hc => (List.nodup_append.mp hnd).2.2 hc ha
      simpa using hna)
  rw [h1, h2, List.nil_append]

/-! ### Claims -/

/-- C1 (code bug): the spec demands that the liveness probe report not-alive
for every pid ≤ 0 and never signal a process group, but
`_is_process_running_by_pid` forwards the pid to `os.kill(pid, 0)`
unguarded.  For pid 0 the call addresses the calling process's own process
group and always succeeds, so the probe reports *alive* for every process
table — including a table with no live process and no existing group.  A
negative pid likewise queries a process group: with pid -5 the probe
reports alive whenever process group 5 exists, even with no live process
recorded in the table. -/
theorem C1_probe_pid_zero_reports_alive :
    (∀ t : ProcessTable, _is_process_running_by_pid t 0 = true) ∧
    _is_process_running_by_pid ⟨fun _ => false, fun _ => false, false⟩ 0 = true ∧
    _is_process_running_by_pid ⟨fun _ => false, fun g => g == 5, false⟩ (-5) = true := by
  refine ⟨fun t => rfl, rfl, by decide⟩

/-- C9: a pid file containing the text `0` is loaded as the integer `0`,
which is falsy in Python, so every caller treats it as the absence of a
record: `status` reports STOPPED without deleting the file, `stop` returns
success without deleting the file, and `start` proceeds to the spawn
without deleting the file — the file is never reconciled. -/
theorem C9_pid_file_zero_never_reconciled (tbl : ProcessTable)
    (tbls : Nat → ProcessTable) (oStop : StopOracle) (o : StartOracle)
    (today ts : Str) (st : MState) (name : Str) (cfg : ServiceConfig)
    (hc : alookup st.services name = some cfg)
    (hp : alookup st.pidFiles name = some ['0']) :
    _load_pid st name = some 0 ∧
    status_service tbl st name = (.stopped, st) ∧
    stop_service tbls oStop st name = (.noPidFile, st, []) ∧
    (stop_service tbls oStop st name).1.toBool = true ∧
    Ev.deletePid name ∉ (start_service tbl o today ts st name).2.2 ∧
    (o.spawnRaises = false →
      Ev.spawn cfg.command cfg.args ∈ (start_service tbl o today ts st name).2.2) := by
  have hl : _load_pid st name = some 0 := by
    simp only [_load_pid, hp]
    decide
  refine ⟨hl, ?_, ?_, ?_, ?_, ?_⟩
  · simp [status_service, hc, hl, optTruthy]
  · simp [stop_service, hc, hl]
  · simp [stop_service, hc, hl, StopOutcome.toBool]
  · rcases o with ⟨sr, cp, ca⟩
    cases sr <;> cases ca <;> simp [start_service, hc, hl, optTruthy]
  · rcases o with ⟨sr, cp, ca⟩
    cases sr <;> cases ca <;> simp [start_service, hc, hl, optTruthy]

/-- C9 witness: concrete instantiation with one configured service whose
pid file contains `0`. -/
theorem C9_pid_file_zero_never_reconciled_witness :
    _load_pid (stWith ['0']) "svc".data = some 0 ∧
    status_service tblDead (stWith ['0']) "svc".data = (.stopped, stWith ['0']) ∧
    stop_service (fun _ => tblDead) ⟨false, false⟩ (stWith ['0']) "svc".data =
      (.noPidFile, stWith ['0'], []) ∧
    (stop_service (fun _ => tblDead) ⟨false, false⟩ (stWith ['0'])
      "svc".data).1.toBool = true ∧
    Ev.deletePid "svc".data ∉
      (start_service tblDead ⟨false, 99, true⟩ "2025-01-01".data
        "2025-01-01 00:00:00".data (stWith ['0']) "svc".data).2.2 ∧
    ((⟨false, 99, true⟩ : StartOracle).spawnRaises = false →
      Ev.spawn cfgSleep.command cfgSleep.args ∈
        (start_service tblDead ⟨false, 99, true⟩ "2025-01-01".data
          "2025-01-01 00:00:00".data (stWith ['0']) "svc".data).2.2) :=
  C9_pid_file_zero_never_reconciled tblDead (fun _ => tblDead) ⟨false, false⟩
    ⟨false, 99, true⟩ "2025-01-01".data "2025-01-01 00:00:00".data
    (stWith ['0']) "svc".data cfgSleep (by decide) (by decide)

/-- C5: when the pid file holds the pid of a live process, `start_service`
is idempotent: it returns success with the already-running report, its
whole observable behaviour is the single liveness probe (so no spawn, no
log write, no pid write), and the state — in particular the pid file — is
unchanged. -/
theorem C5_start_idempotent_on_running (tbl : ProcessTable) (o : StartOracle)
    (today ts : Str) (st : MState) (name : Str) (cfg : ServiceConfig) (p : Int)
    (hc : alookup st.services name = some cfg)
    (hl : _load_pid st name = some p)
    (hp : 0 < p)
    (halive : tbl.procs p = true) :
    start_service tbl o today ts st name =
      (.alreadyRunning p, st, [Ev.probe p true]) ∧
    (start_service tbl o today ts st name).1.toBool = true := by
  have hrun : _is_process_running_by_pid tbl p = true := by
    simp [_is_process_running_by_pid, osKill0Succeeds, hp, halive]
  have h : start_service tbl o today ts st name =
      (.alreadyRunning p, st, [Ev.probe p true]) := by
    simp [start_service, hc, hl, optTruthy, hp.ne', hrun]
  exact ⟨h, by rw [h]; rfl⟩

/-- C5 witness: service `svc` with pid file `42` and live process 42. -/
theorem C5_start_idempotent_on_running_witness :
    start_service tbl42 ⟨false, 99, true⟩ "2025-01-01".data
      "2025-01-01 00:00:00".data (stWith "42".data) "svc".data =
      (.alreadyRunning 42, stWith "42".data, [Ev.probe 42 true]) ∧
    (start_service tbl42 ⟨false, 99, true⟩ "2025-01-01".data
      "2025-01-01 00:00:00".data (stWith "42".data) "svc".data).1.toBool = true :=
  C5_start_idempotent_on_running tbl42 ⟨false, 99, true⟩ "2025-01-01".data
    "2025-01-01 00:00:00".data (stWith "42".data) "svc".data cfgSleep 42
    (by decide) (by decide) (by decide) (by decide)

/-- C2: a stale pid file — a positive pid whose process is dead — is
reconciled by each of `status`, `start` and `stop`: `status` reports
STOPPED (stale) and deletes the file; `stop` deletes the file and returns
success; `start` deletes the file and then behaves exactly as on the
reconciled state (with no pid file), proceeding to the spawn.  None of the
three signals an error. -/
theorem C2_stale_pid_reconciled (tbl : ProcessTable)
    (tbls : Nat → ProcessTable) (oStop : StopOracle) (o : StartOracle)
    (today ts : Str) (st : MState) (name : Str) (cfg : ServiceConfig) (p : Int)
    (hc : alookup st.services name = some cfg)
    (hl : _load_pid st name = some p)
    (hp : 0 < p)
    (hdead : tbl.procs p = false)
    (hdead0 : (tbls 0).procs p = false) :
    status_service tbl st name = (.stoppedStale p, _delete_pid_file st name) ∧
    stop_service tbls oStop st name =
      (.staleCleared, _delete_pid_file st name,
       [Ev.probe p false, Ev.deletePid name]) ∧
    (stop_service tbls oStop st name).1.toBool = true ∧
    start_service tbl o today ts st name =
      ((start_service tbl o today ts (_delete_pid_file st name) name).1,
       (start_service tbl o today ts (_delete_pid_file st name) name).2.1,
       Ev.probe p false :: Ev.deletePid name ::
         (start_service tbl o today ts (_delete_pid_file st name) name).2.2) ∧
    (o.spawnRaises = false →
      Ev.spawn cfg.command cfg.args ∈ (start_service tbl o today ts st name).2.2) := by
  have hrun : _is_process_running_by_pid tbl p = false := by
    simp [_is_process_running_by_pid, osKill0Succeeds, hp, hdead]
  have hrun0 : _is_process_running_by_pid (tbls 0) p = false := by
    simp [_is_process_running_by_pid, osKill0Succeeds, hp, hdead0]
  have hcd : alookup (_delete_pid_file st name).services name = some cfg := hc
  have hld : _load_pid (_delete_pid_file st name) name = none := by
    simp [_load_pid, _delete_pid_file, alookup_eraseKey]
  have hstop : stop_service tbls oStop st name =
      (.staleCleared, _delete_pid_file st name,
       [Ev.probe p false, Ev.deletePid name]) := by
    simp [stop_service, hc, hl, hp.ne', hrun0]
  refine ⟨?_, hstop, by rw [hstop]; rfl, ?_, ?_⟩
  · simp [status_service, hc, hl, optTruthy, hp.ne', hrun]
  · rcases o with ⟨sr, cp, ca⟩
    cases sr <;> cases ca <;>
      simp [start_service, hc, hl, hcd, hld, optTruthy, hp.ne', hrun]
  · rcases o with ⟨sr, cp, ca⟩
    cases sr <;> cases ca <;>
      simp [start_service, hc, hl, optTruthy, hp.ne', hrun]

/-- C2 witness: service `svc`, pid file `42`, no live process. -/
theorem C2_stale_pid_reconciled_witness :
    status_service tblDead (stWith "42".data) "svc".data =
      (.stoppedStale 42, _delete_pid_file (stWith "42".data) "svc".data) ∧
    stop_service (fun _ => tblDead) ⟨false, false⟩ (stWith "42".data) "svc".data =
      (.staleCleared, _delete_pid_file (stWith "42".data) "svc".data,
       [Ev.probe 42 false, Ev.deletePid "svc".data]) ∧
    (stop_service (fun _ => tblDead) ⟨false, false⟩ (stWith "42".data)
      "svc".data).1.toBool = true ∧
    start_service tblDead ⟨false, 99, true⟩ "2025-01-01".data
      "2025-01-01 00:00:00".data (stWith "42".data) "svc".data =
      ((start_service tblDead ⟨false, 99, true⟩ "2025-01-01".data
         "2025-01-01 00:00:00".data
         (_delete_pid_file (stWith "42".data) "svc".data) "svc".data).1,
       (start_service tblDead ⟨false, 99, true⟩ "2025-01-01".data
         "2025-01-01 00:00:00".data
         (_delete_pid_file (stWith "42".data) "svc".data) "svc".data).2.1,
       Ev.probe 42 false :: Ev.deletePid "svc".data ::
         (start_service tblDead ⟨false, 99, true⟩ "2025-01-01".data
           "2025-01-01 00:00:00".data
           (_delete_pid_file (stWith "42".data) "svc".data) "svc".data).2.2) ∧
    ((⟨false, 99, true⟩ : StartOracle).spawnRaises = false →
      Ev.spawn cfgSleep.command cfgSleep.args ∈
        (start_service tblDead ⟨false, 99, true⟩ "2025-01-01".data
          "2025-01-01 00:00:00".data (stWith "42".data) "svc".data).2.2) :=
  C2_stale_pid_reconciled tblDead (fun _ => tblDead) ⟨false, false⟩
    ⟨false, 99, true⟩ "2025-01-01".data "2025-01-01 00:00:00".data
    (stWith "42".data) "svc".data cfgSleep 42
    (by decide) (by decide) (by decide) (by decide) (by decide)

/-- C6: when the service is not already running and `Popen` raises (e.g.
executable not found or permission denied), `start_service` fails: it
returns the spawn-error outcome (Python `False`); no pid file is written —
the pid files are exactly those of the pre-state, minus only the stale
reconciliation deletion — and no pid-save event occurs; today's log file
receives exactly the session-start marker and nothing else; and no child
spawn event occurs. -/
theorem C6_spawn_failure_no_partial_state (tbl : ProcessTable)
    (o : StartOracle) (today ts : Str) (st : MState) (name : Str)
    (cfg : ServiceConfig)
    (hc : alookup st.services name = some cfg)
    (hnr : (optTruthy (_load_pid st name) &&
            _is_process_running_by_pid tbl ((_load_pid st name).getD 0)) = false)
    (hsr : o.spawnRaises = true) :
    (start_service tbl o today ts st name).1 = .spawnError ∧
    (start_service tbl o today ts st name).1.toBool = false ∧
    (start_service tbl o today ts st name).2.1.pidFiles =
      (if optTruthy (_load_pid st name) then eraseKey st.pidFiles name
       else st.pidFiles) ∧
    (∀ q : Int, Ev.savePid name q ∉ (start_service tbl o today ts st name).2.2) ∧
    getLog (start_service tbl o today ts st name).2.1.logFiles
        (logFileName name today) =
      getLog st.logFiles (logFileName name today) ++ [sessionMarker ts] ∧
    (∀ c a, Ev.spawn c a ∉ (start_service tbl o today ts st name).2.2) := by
  cases ht : optTruthy (_load_pid st name) with
  | false =>
    simp [start_service, hc, hsr, ht, _delete_pid_file, appendLog,
      getLog, alookup, StartOutcome.toBool]
  | true =>
    have hpr : _is_process_running_by_pid tbl ((_load_pid st name).getD 0) = false := by
      simpa [ht] using hnr
    simp [start_service, hc, hsr, ht, hpr, _delete_pid_file, appendLog,
      getLog, alookup, StartOutcome.toBool]

/-- C6 witness: service `bad-cmd` with command `/nonexistent/binary`, no
pid file, spawn raises. -/
theorem C6_spawn_failure_no_partial_state_witness :
    (start_service tblDead ⟨true, 99, false⟩ "2025-01-01".data
      "2025-01-01 00:00:00".data
      ⟨[("bad-cmd".data, ⟨"/nonexistent/binary".data, [], none, []⟩)], [], []⟩
      "bad-cmd".data).1 = .spawnError ∧
    (start_service tblDead ⟨true, 99, false⟩ "2025-01-01".data
      "2025-01-01 00:00:00".data
      ⟨[("bad-cmd".data, ⟨"/nonexistent/binary".data, [], none, []⟩)], [], []⟩
      "bad-cmd".data).1.toBool = false ∧
    (start_service tblDead ⟨true, 99, false⟩ "2025-01-01".data
      "2025-01-01 00:00:00".data
      ⟨[("bad-cmd".data, ⟨"/nonexistent/binary".data, [], none, []⟩)], [], []⟩
      "bad-cmd".data).2.1.pidFiles =
      (if optTruthy (_load_pid
           ⟨[("bad-cmd".data, ⟨"/nonexistent/binary".data, [], none, []⟩)], [], []⟩
           "bad-cmd".data) then
         eraseKey ([] : List (Str × Str)) "bad-cmd".data
       else []) ∧
    (∀ q : Int, Ev.savePid "bad-cmd".data q ∉
      (start_service tblDead ⟨true, 99, false⟩ "2025-01-01".data
        "2025-01-01 00:00:00".data
        ⟨[("bad-cmd".data, ⟨"/nonexistent/binary".data, [], none, []⟩)], [], []⟩
        "bad-cmd".data).2.2) ∧
    getLog (start_service tblDead ⟨true, 99, false⟩ "2025-01-01".data
        "2025-01-01 00:00:00".data
        ⟨[("bad-cmd".data, ⟨"/nonexistent/binary".data, [], none, []⟩)], [], []⟩
        "bad-cmd".data).2.1.logFiles
        (logFileName "bad-cmd".data "2025-01-01".data) =
      getLog [] (logFileName "bad-cmd".data "2025-01-01".data) ++
        [sessionMarker "2025-01-01 00:00:00".data] ∧
    (∀ c a, Ev.spawn c a ∉
      (start_service tblDead ⟨true, 99, false⟩ "2025-01-01".data
        "2025-01-01 00:00:00".data
        ⟨[("bad-cmd".data, ⟨"/nonexistent/binary".data, [], none, []⟩)], [], []⟩
        "bad-cmd".data).2.2) :=
  C6_spawn_failure_no_partial_state tblDead ⟨true, 99, false⟩
    "2025-01-01".data "2025-01-01 00:00:00".data
    ⟨[("bad-cmd".data, ⟨"/nonexistent/binary".data, [], none, []⟩)], [], []⟩
    "bad-cmd".data ⟨"/nonexistent/binary".data, [], none, []⟩
    (by decide) (by decide) (by decide)

/-- C4: for a recorded live pid, after the signalling block of
`stop_service` (whatever raises inside it), the outcome is decided solely
by the final liveness re-check, whose probe index is
`(stopTryBlock tbl o p).1`: still alive → `stillRunning` (Python `False`,
the warning) and the state — in particular the pid file — is exactly the
pre-state; dead → the pid file is deleted and the outcome is `stopped`
(Python `True`). -/
theorem C4_stop_final_check_decides (tbl : Nat → ProcessTable)
    (o : StopOracle) (st : MState) (name : Str) (cfg : ServiceConfig) (p : Int)
    (hc : alookup st.services name = some cfg)
    (hl : _load_pid st name = some p)
    (hp0 : p ≠ 0)
    (halive : _is_process_running_by_pid (tbl 0) p = true) :
    (stop_service tbl o st name).1 =
      (if _is_process_running_by_pid (tbl (stopTryBlock tbl o p).1) p
       then .stillRunning else .stopped) ∧
    (stop_service tbl o st name).2.1 =
      (if _is_process_running_by_pid (tbl (stopTryBlock tbl o p).1) p
       then st else _delete_pid_file st name) ∧
    (stop_service tbl o st name).1.toBool =
      !(_is_process_running_by_pid (tbl (stopTryBlock tbl o p).1) p) := by
  by_cases hf : _is_process_running_by_pid (tbl (stopTryBlock tbl o p).1) p = true <;>
    simp [stop_service, hc, hl, hp0, halive, hf, StopOutcome.toBool]

/-- C4 witness: pid 42, alive at every probe — stop fails as
`stillRunning` and leaves the state untouched. -/
theorem C4_stop_final_check_decides_witness :
    (stop_service (fun _ => tbl42) ⟨false, false⟩ (stWith "42".data)
      "svc".data).1 =
      (if _is_process_running_by_pid
            ((fun _ => tbl42) (stopTryBlock (fun _ => tbl42) ⟨false, false⟩ 42).1) 42
       then .stillRunning else .stopped) ∧
    (stop_service (fun _ => tbl42) ⟨false, false⟩ (stWith "42".data)
      "svc".data).2.1 =
      (if _is_process_running_by_pid
            ((fun _ => tbl42) (stopTryBlock (fun _ => tbl42) ⟨false, false⟩ 42).1) 42
       then stWith "42".data else _delete_pid_file (stWith "42".data) "svc".data) ∧
    (stop_service (fun _ => tbl42) ⟨false, false⟩ (stWith "42".data)
      "svc".data).1.toBool =
      !(_is_process_running_by_pid
          ((fun _ => tbl42) (stopTryBlock (fun _ => tbl42) ⟨false, false⟩ 42).1) 42) :=
  C4_stop_final_check_decides (fun _ => tbl42) ⟨false, false⟩
    (stWith "42".data) "svc".data cfgSleep 42 (by decide) (by decide)
    (by decide) (by decide)

/-- C3: for a recorded live pid and a signalling block that does not raise,
the trace of `stop_service` is exactly: the initial liveness probe, SIGTERM
to the process group, the wait loop (one probe per second, each positive
probe followed by a 1-second sleep), then — only if the post-loop probe
still finds the process alive — SIGKILL to the group followed by one more
1-second sleep, and finally the deciding re-check (with the pid-file
deletion on death).  The wait loop performs at most 10 probes. -/
theorem C3_stop_escalation_protocol (tbl : Nat → ProcessTable)
    (o : StopOracle) (st : MState) (name : Str) (cfg : ServiceConfig) (p : Int)
    (hc : alookup st.services name = some cfg)
    (hl : _load_pid st name = some p)
    (hp0 : p ≠ 0)
    (halive : _is_process_running_by_pid (tbl 0) p = true)
    (hterm : o.termRaises = false) (hkill : o.killRaises = false) :
    (stop_service tbl o st name).2.2 =
      Ev.probe p true :: Ev.sigTermGroup p ::
        ((stopPollTr tbl p 1 10).2 ++
         (if _is_process_running_by_pid (tbl (stopPollTr tbl p 1 10).1) p then
            [Ev.probe p true, Ev.sigKillGroup p, Ev.sleep 1]
          else [Ev.probe p false]) ++
         (if _is_process_running_by_pid (tbl ((stopPollTr tbl p 1 10).1 + 1)) p then
            [Ev.probe p true]
          else [Ev.probe p false, Ev.deletePid name])) ∧
    countProbes (stopPollTr tbl p 1 10).2 ≤ 10 := by
  refine ⟨?_, countProbes_stopPollTr tbl p 10 1⟩
  by_cases hmid : _is_process_running_by_pid (tbl (stopPollTr tbl p 1 10).1) p = true <;>
    by_cases hf : _is_process_running_by_pid (tbl ((stopPollTr tbl p 1 10).1 + 1)) p = true <;>
      simp [stop_service, stopTryBlock, hc, hl, hp0, halive, hterm, hkill, hmid, hf]

/-- C3 witness: pid 42, alive until the 3rd probe, then dead — SIGTERM, two
poll probes, no SIGKILL, final probe deletes the pid file. -/
theorem C3_stop_escalation_protocol_witness :
    (stop_service (fun k => if k < 2 then tbl42 else tblDead) ⟨false, false⟩
      (stWith "42".data) "svc".data).2.2 =
      Ev.probe 42 true :: Ev.sigTermGroup 42 ::
        ((stopPollTr (fun k => if k < 2 then tbl42 else tblDead) 42 1 10).2 ++
         (if _is_process_running_by_pid
              ((fun k => if k < 2 then tbl42 else tblDead)
               (stopPollTr (fun k => if k < 2 then tbl42 else tblDead) 42 1 10).1) 42 then
            [Ev.probe 42 true, Ev.sigKillGroup 42, Ev.sleep 1]
          else [Ev.probe 42 false]) ++
         (if _is_process_running_by_pid
              ((fun k => if k < 2 then tbl42 else tblDead)
               ((stopPollTr (fun k => if k < 2 then tbl42 else tblDead) 42 1 10).1 + 1)) 42 then
            [Ev.probe 42 true]
          else [Ev.probe 42 false, Ev.deletePid "svc".data])) ∧
    countProbes (stopPollTr (fun k => if k < 2 then tbl42 else tblDead) 42 1 10).2 ≤ 10 :=
  C3_stop_escalation_protocol (fun k => if k < 2 then tbl42 else tblDead)
    ⟨false, false⟩ (stWith "42".data) "svc".data cfgSleep 42
    (by decide) (by decide) (by decide) (by decide) (by decide) (by decide)

/-- C8: `restart_service` is `stop_service` followed — only when stop
reported success — by a fixed 1-second settle sleep and `start_service`,
whose result it returns; when stop reports failure the failure propagates
and no child is spawned (the stop trace never contains a spawn event). -/
theorem C8_restart_composition (tbls : Nat → ProcessTable)
    (oStop : StopOracle) (tbl : ProcessTable) (oStart : StartOracle)
    (today ts : Str) (st : MState) (name : Str) :
    restart_service tbls oStop tbl oStart today ts st name =
      (if (stop_service tbls oStop st name).1.toBool = false then
         (false, (stop_service tbls oStop st name).2.1,
          (stop_service tbls oStop st name).2.2)
       else
         ((start_service tbl oStart today ts
             (stop_service tbls oStop st name).2.1 name).1.toBool,
          (start_service tbl oStart today ts
             (stop_service tbls oStop st name).2.1 name).2.1,
          (stop_service tbls oStop st name).2.2 ++
            Ev.sleep 1 ::
              (start_service tbl oStart today ts
                (stop_service tbls oStop st name).2.1 name).2.2)) ∧
    ∀ c a, Ev.spawn c a ∉ (stop_service tbls oStop st name).2.2 :=
  ⟨rfl, fun c a => spawn_not_mem_stop_trace tbls oStop st name c a⟩

theorem cleanupService_eq (N : Int) (files : List Str) (name : Str) :
    cleanupService N files name =
      if ((files.filter (fun f => globMatch name f)).length : Int) ≤ N then files
      else
        files.filter (fun f =>
          !(pySliceTo
              ((files.filter (fun f => globMatch name f)).insertionSort
                (fun a b => a ≤ b)) (-N)).contains f) := rfl

/-- C7 counterexample: the claim quantifies over the configured retention
count N, but for N = 0 the Python slice `log_files[:-0]` is `log_files[:0]
= []`, so the cleanup deletes nothing: with one service `web`, retention 0
and one matching log file, the file survives engine start-up, although the
claim requires at most 0 matching files to remain. -/
theorem C7_retention_zero_keeps_all :
    _cleanup_old_logs (some 0) ⟨[("web".data, cfgSleep)], [], []⟩
      ["web-2024-01-01.log".data] = ["web-2024-01-01.log".data] ∧
    ¬ ((List.filter (fun f => globMatch "web".data f)
          (_cleanup_old_logs (some 0) ⟨[("web".data, cfgSleep)], [], []⟩
            ["web-2024-01-01.log".data])).length ≤ 0) := by
  decide

/-- C7 (amended): provided the configured retention count N is at least 1,
one rotation pass for a service sorts the log files matching the service's
glob pattern lexicographically by file name and deletes all but the most
recent N of them: afterwards exactly `min matched N` matching files remain,
every deleted file matched the pattern and is lexicographically ≤ every
surviving matching file (the oldest are the ones removed, dates being
lexicographically ordered), and non-matching files are untouched.  The
engine runs this pass at construction for every configured service; for a
single-service configuration `_cleanup_old_logs` is exactly this pass. -/
theorem C7_log_rotation_retention (N : Int) (name : Str) (files : List Str)
    (hN : 1 ≤ N) (hnd : files.Nodup) :
    ((cleanupService N files name).filter (fun f => globMatch name f)).length =
      min (files.filter (fun f => globMatch name f)).length N.toNat ∧
    (∀ f ∈ files, f ∉ cleanupService N files name →
      globMatch name f = true ∧
      ∀ g ∈ cleanupService N files name, globMatch name g = true → f ≤ g) ∧
    (∀ f ∈ files, globMatch name f = false → f ∈ cleanupService N files name) ∧
    (∀ cfg pids logs, _cleanup_old_logs (some N) ⟨[(name, cfg)], pids, logs⟩ files =
      cleanupService N files name) := by
  by_cases hcond : ((files.filter (fun f => globMatch name f)).length : Int) ≤ N
  · have hres : cleanupService N files name = files := by
      rw [cleanupService_eq, if_pos hcond]
    refine ⟨?_, ?_, ?_, fun cfg pids logs => rfl⟩
    · rw [hres]
      have h1 : (files.filter (fun f => globMatch name f)).length ≤ N.toNat := by
        omega
      omega
    · intro f hf hnf
      rw [hres] at hnf
      exact absurd hf hnf
    · intro f hf _
      rw [hres]
      exact hf
  · have hperm : List.Perm
        ((files.filter (fun f => globMatch name f)).insertionSort (fun a b => a ≤ b))
        (files.filter (fun f => globMatch name f)) :=
      List.perm_insertionSort _ _
    have hsort : List.Sorted (fun a b : Str => a ≤ b)
        ((files.filter (fun f => globMatch name f)).insertionSort (fun a b => a ≤ b)) :=
      List.sorted_insertionSort _ _
    have hndm : (files.filter (fun f => globMatch name f)).Nodup := hnd.filter _
    have hnds : ((files.filter (fun f => globMatch name f)).insertionSort
        (fun a b => a ≤ b)).Nodup := hperm.nodup_iff.mpr hndm
    generalize hS :
      (files.filter (fun f => globMatch name f)).insertionSort (fun a b => a ≤ b) =
        sorted at hperm hsort hnds
    have hslice : pySliceTo sorted (-N) = sorted.take (sorted.length - N.toNat) := by
      have h1 : ¬ ((0 : Int) ≤ -N) := by omega
      simp [pySliceTo, h1]
    have hres : cleanupService N files name =
        files.filter (fun f => !(sorted.take (sorted.length - N.toNat)).contains f) := by
      rw [cleanupService_eq, if_neg hcond, hS, hslice]
    have hNlen : N.toNat ≤ (files.filter (fun f => globMatch name f)).length := by
      push_neg at hcond
      omega
    have hkey : (cleanupService N files name).filter (fun f => globMatch name f) =
        (files.filter (fun f => globMatch name f)).filter
          (fun f => !(sorted.take (sorted.length - N.toNat)).contains f) := by
      rw [hres, List.filter_comm]
    have hsplit : sorted.filter
        (fun f => !(sorted.take (sorted.length - N.toNat)).contains f) =
        sorted.drop (sorted.length - N.toNat) :=
      filter_not_contains_take sorted _ hnds
    refine ⟨?_, ?_, ?_, fun cfg pids logs => rfl⟩
    · rw [hkey]
      have hp2 : List.Perm
          ((files.filter (fun f => globMatch name f)).filter
            (fun f => !(sorted.take (sorted.length - N.toNat)).contains f))
          (sorted.filter
            (fun f => !(sorted.take (sorted.length - N.toNat)).contains f)) :=
        (hperm.filter _).symm
      rw [hp2.length_eq, hsplit, List.length_drop]
      have hlen : sorted.length = (files.filter (fun f => globMatch name f)).length :=
        hperm.length_eq
      omega
    · intro f hf hnf
      rw [hres] at hnf
      have hfd : f ∈ sorted.take (sorted.length - N.toNat) := by
        by_contra hc
        exact hnf (List.mem_filter.mpr ⟨hf, by simpa using hc⟩)
      have hfs : f ∈ sorted := List.take_subset _ _ hfd
      have hfm : f ∈ files.filter (fun f => globMatch name f) := hperm.mem_iff.mp hfs
      refine ⟨(List.mem_filter.mp hfm).2, ?_⟩
      intro g hg hgm
      rw [hres] at hg
      obtain ⟨hgfiles, hgp⟩ := List.mem_filter.mp hg
      have hgnd : g ∉ sorted.take (sorted.length - N.toNat) := by
        intro hc
        have hcont : (sorted.take (sorted.length - N.toNat)).contains g = true :=
          List.elem_iff.mpr hc
        rw [hcont] at hgp
        exact absurd hgp (by simp)
      have hgs : g ∈ sorted := hperm.mem_iff.mpr (List.mem_filter.mpr ⟨hgfiles, hgm⟩)
      have hgdrop : g ∈ sorted.drop (sorted.length - N.toNat) := by
        have hsum : g ∈ sorted.take (sorted.length - N.toNat) ++
            sorted.drop (sorted.length - N.toNat) := by
          rw [List.take_append_drop]
          exact hgs
        rcases List.mem_append.mp hsum with h | h
        · exact absurd h hgnd
        · exact h
      have hpw : ∀ x ∈ sorted.take (sorted.length - N.toNat),
          ∀ y ∈ sorted.drop (sorted.length - N.toNat), x ≤ y := by
        have hsort2 : List.Pairwise (fun a b : Str => a ≤ b)
            (sorted.take (sorted.length - N.toNat) ++
             sorted.drop (sorted.length - N.toNat)) := by
          rw [List.take_append_drop]
          exact hsort
        exact (List.pairwise_append.mp hsort2).2.2
      exact hpw f hfd g hgdrop
    · intro f hf hglobf
      rw [hres]
      apply List.mem_filter.mpr
      refine ⟨hf, ?_⟩
      have hnm : f ∉ sorted.take (sorted.length - N.toNat) := by
        intro hc
        have hfm : f ∈ files.filter (fun f => globMatch name f) :=
          hperm.mem_iff.mp (List.take_subset _ _ hc)
        have h2 := (List.mem_filter.mp hfm).2
        rw [hglobf] at h2
        exact absurd h2 (by simp)
      simpa using hnm

/-- C7 witness (for the amended claim): service `web`, retention 1, two
matching log files — the lexicographically smaller (older) one is deleted. -/
theorem C7_log_rotation_retention_witness :
    ((cleanupService 1 ["web-2025-01-01.log".data, "web-2025-01-02.log".data]
        "web".data).filter (fun f => globMatch "web".data f)).length =
      min (List.filter (fun f => globMatch "web".data f)
            ["web-2025-01-01.log".data, "web-2025-01-02.log".data]).length
        (1 : Int).toNat ∧
    (∀ f ∈ ["web-2025-01-01.log".data, "web-2025-01-02.log".data],
      f ∉ cleanupService 1 ["web-2025-01-01.log".data, "web-2025-01-02.log".data]
            "web".data →
      globMatch "web".data f = true ∧
      ∀ g ∈ cleanupService 1 ["web-2025-01-01.log".data, "web-2025-01-02.log".data]
              "web".data, globMatch "web".data g = true → f ≤ g) ∧
    (∀ f ∈ ["web-2025-01-01.log".data, "web-2025-01-02.log".data],
      globMatch "web".data f = false →
      f ∈ cleanupService 1 ["web-2025-01-01.log".data, "web-2025-01-02.log".data]
            "web".data) ∧
    (∀ cfg pids logs, _cleanup_old_logs (some 1) ⟨[("web".data, cfg)], pids, logs⟩
        ["web-2025-01-01.log".data, "web-2025-01-02.log".data] =
      cleanupService 1 ["web-2025-01-01.log".data, "web-2025-01-02.log".data]
        "web".data) :=
  C7_log_rotation_retention 1 "web".data
    ["web-2025-01-01.log".data, "web-2025-01-02.log".data]
    (by decide) (by decide)

/-- C10: the cleanup glob `<service>-*.log` over-matches: whenever a
service name `t` is `s` followed by `-` and more characters, every file
matching t's pattern also matches s's pattern.  Concretely, with retention
1, the pass for `web` counts the files of a sibling service `web-api`
toward `web`'s limit and deletes `web-api`'s older file — and, since
`web-...` date files sort before `web-api-...` files, `web`'s pass can even
delete both of `web`'s own files and keep only `web-api`'s. -/
theorem C10_glob_pattern_overmatch :
    (∀ s r f : Str, globMatch (s ++ '-' :: r) f = true → globMatch s f = true) ∧
    cleanupService 1 ["web-api-2025-01-01.log".data, "web-api-2025-01-02.log".data]
      "web".data = ["web-api-2025-01-02.log".data] ∧
    cleanupService 1 ["web-2025-01-01.log".data, "web-2025-01-02.log".data,
      "web-api-2025-01-03.log".data] "web".data = ["web-api-2025-01-03.log".data] := by
  refine ⟨?_, by decide, by decide⟩
  intro s r f h
  simp only [globMatch, Bool.and_eq_true, decide_eq_true_eq] at h ⊢
  obtain ⟨⟨hpre, hsuf⟩, hlen⟩ := h
  refine ⟨⟨?_, hsuf⟩, ?_⟩
  · rw [List.isPrefixOf_iff_prefix] at hpre ⊢
    have hsplit : (s ++ '-' :: r) ++ ['-'] = (s ++ ['-']) ++ (r ++ ['-']) := by
      simp
    have h1 : (s ++ ['-']) <+: ((s ++ '-' :: r) ++ ['-']) := by
      rw [hsplit]
      exact (s ++ ['-']).prefix_append (r ++ ['-'])
    exact h1.trans hpre
  · simp only [List.length_append, List.length_cons] at hlen ⊢
    omega

/-- C10 witness: `web-api`'s log file matches `web`'s pattern. -/
theorem C10_glob_pattern_overmatch_witness :
    globMatch "web".data "web-api-2025-01-01.log".data = true :=
  C10_glob_pattern_overmatch.1 "web".data "api".data
    "web-api-2025-01-01.log".data (by decide)

end ServiceManage
